import Mathlib

/-!
# Verification of the voter-ingestion pipeline

A shallow embedding, in Lean 4, of the voter-ID ingestion pipeline
(`ingest_voters_to_supabase.py`, `ocr_cloud_vision.py`, `pdf_crop.py`) and of
the query-side normalization of `main.py`, together with theorems settling the
specification's claims about them.

Modelling conventions:
* Python strings are modelled as lists of characters (`PyStr`); `str.replace`,
  `str.strip`, `str.upper`, `str.lower`, `str.split` and slicing become the
  corresponding list operations.
* Python floats are modelled by rational numbers `ℚ` (the spec's unit-conversion
  claim is itself stated "exactly, over rational arithmetic").
* Python code that may raise an exception is modelled in the `Except` monad:
  `.error` is an uncaught exception carrying its message.
* Calls to external services (object store, OCR provider, table store) are
  modelled by environments recording each call's outcome, so that the control
  flow of the orchestrator around them can be proved about.
-/

abbrev PyStr := List Char

/-- Characters stripped by Python's `str.strip()` (the ASCII whitespace
characters: space, tab, newline, carriage return, vertical tab, form feed). -/
def isPySpace (c : Char) : Bool :=
  c.toNat = 32 || c.toNat = 9 || c.toNat = 10 || c.toNat = 13 ||
  c.toNat = 11 || c.toNat = 12

/-- Python's `str.strip()` on a list of characters: drop leading and trailing
whitespace. -/
def pyStrip (l : PyStr) : PyStr :=
  (l.dropWhile isPySpace).rdropWhile isPySpace

/-- ASCII uppercasing of one character, as Python's `str.upper` acts on the
ASCII range: codes 97..122 (`a`..`z`) are shifted down by 32, everything else
is unchanged. -/
def pyUpper (c : Char) : Char :=
  if 97 ≤ c.toNat ∧ c.toNat ≤ 122 then Char.ofNat (c.toNat - 32) else c

/-- ASCII lowercasing of one character, as Python's `str.lower` acts on the
ASCII range: codes 65..90 (`A`..`Z`) are shifted up by 32. -/
def pyLower (c : Char) : Char :=
  if 65 ≤ c.toNat ∧ c.toNat ≤ 90 then Char.ofNat (c.toNat + 32) else c

/-- Membership in the regex character class `[A-Z0-9]` (codes 65..90 and
48..57), used by `main.py`'s `VOTER_ID_ALLOWED` pattern and by the character
filter inside `normalize_voter_id`. -/
def isUpperAlnumChar (c : Char) : Bool :=
  (65 ≤ c.toNat && c.toNat ≤ 90) || (48 ≤ c.toNat && c.toNat ≤ 57)

/-- Membership in the regex character class `[A-Za-z0-9]`. -/
def isAlnumChar (c : Char) : Bool :=
  (65 ≤ c.toNat && c.toNat ≤ 90) || (97 ≤ c.toNat && c.toNat ≤ 122) ||
  (48 ≤ c.toNat && c.toNat ≤ 57)

/-- The character class of the pipeline's default extraction regex
`[A-Za-z0-9/]+` (`parse_args`, `--regex` default). -/
def defaultIdClass (c : Char) : Bool :=
  isAlnumChar c || c = '/'

/-- `clean_voter_id` of `ingest_voters_to_supabase.py`:
`raw.replace("/", "").strip()`. -/
def clean_voter_id (raw : PyStr) : PyStr :=
  pyStrip (raw.filter (fun c => c != '/'))

/-- `normalize_voter_id` of `main.py`:
`raw.replace("/", "").upper()`, then `re.sub(r"[^A-Z0-9]", "", ·)`,
then the hard length cap `[:40]`. -/
def normalize_voter_id (raw : PyStr) : PyStr :=
  ((((raw.filter (fun c => c != '/')).map pyUpper).filter isUpperAlnumChar).take 40)

/-- Worker for `findall_class`: scans the line left to right, `acc` holding the
(reversed) run of class characters currently being read. -/
def findall_go (cls : Char → Bool) : List Char → List Char → List PyStr
  | [], acc => if acc.isEmpty then [] else [acc.reverse]
  | c :: rest, acc =>
    if cls c then findall_go cls rest (c :: acc)
    else if acc.isEmpty then findall_go cls rest []
    else acc.reverse :: findall_go cls rest []

/-- Python's `re.findall` for a pattern of the shape `[class]+` (one character
class under `+`): the maximal non-empty runs of class characters, left to
right. This is the shape of the pipeline's default `--regex`,
`[A-Za-z0-9/]+`. -/
def findall_class (cls : Char → Bool) (line : PyStr) : List PyStr :=
  findall_go cls line []

/-- The deduplication loop at the end of `extract_ids_from_lines`: a `seen` set
(here a list) and an output list preserving first-seen order. -/
def dedup_first_seen (seen : List PyStr) : List PyStr → List PyStr
  | [] => []
  | v :: rest =>
    if v ∈ seen then dedup_first_seen seen rest
    else v :: dedup_first_seen (v :: seen) rest

/-- `extract_ids_from_lines` of `ingest_voters_to_supabase.py`: for each OCR
line, find all matches of the pattern, clean each with `clean_voter_id`, keep
the non-empty results, then deduplicate preserving first-seen order. The
pattern is represented by its character class (see `findall_class`). -/
def extract_ids_from_lines (lines : List PyStr) (cls : Char → Bool) : List PyStr :=
  let ids := lines.flatMap (fun ln =>
    (findall_class cls ln).filterMap (fun m =>
      let cleaned := clean_voter_id m
      if cleaned.isEmpty then none else some cleaned))
  dedup_first_seen [] ids

example :
    extract_ids_from_lines
      ["AB/12".toList, "xx".toList, "AB12".toList, "CD/34".toList]
      defaultIdClass =
      ["AB12".toList, "xx".toList, "CD34".toList] := by decide

example : clean_voter_id " WB/24/1 ".toList = "WB241".toList := by decide

example : normalize_voter_id "wb/24a..x".toList = "WB24AX".toList := by decide

/-- Membership in the digit class `[0-9]`. -/
def isDigitChar (c : Char) : Bool := 48 ≤ c.toNat && c.toNat ≤ 57

/-- Value of a digit string read as a natural number (empty string reads as 0,
which only arises for an absent integer or fractional part of a float
literal). -/
def digitsNat (l : PyStr) : ℕ :=
  l.foldl (fun a c => 10 * a + (c.toNat - 48)) 0

/-- Parse the mantissa of a Python float literal: digits with an optional
decimal point, at least one digit present. Returns the combined digit string
read as a natural number, the number of fractional digits, and the unread
remainder of the string (so the mantissa's value is the first component
divided by ten to the second). -/
def parseMantissa (l : PyStr) : Option ((ℕ × ℕ) × PyStr) :=
  let intPart := l.takeWhile isDigitChar
  let rest := l.dropWhile isDigitChar
  match rest with
  | '.' :: rest2 =>
    let fracPart := rest2.takeWhile isDigitChar
    let rest3 := rest2.dropWhile isDigitChar
    if intPart.isEmpty && fracPart.isEmpty then none
    else some ((digitsNat (intPart ++ fracPart), fracPart.length), rest3)
  | _ => if intPart.isEmpty then none else some ((digitsNat intPart, 0), rest)

/-- Parse the exponent suffix of a Python float literal: nothing, or
`(e|E)[+-]?digits`. -/
def parseExpPart : PyStr → Option ℤ
  | [] => some 0
  | c :: rest =>
    if c = 'e' || c = 'E' then
      match rest with
      | '+' :: ds =>
        if !ds.isEmpty && ds.all isDigitChar then some (Int.ofNat (digitsNat ds)) else none
      | '-' :: ds =>
        if !ds.isEmpty && ds.all isDigitChar then some (-Int.ofNat (digitsNat ds)) else none
      | ds =>
        if !ds.isEmpty && ds.all isDigitChar then some (Int.ofNat (digitsNat ds)) else none
    else none

/-- Python's `float(s.strip())` on decimal literals, modelled over `ℚ`:
surrounding whitespace stripped, optional sign, digits with optional decimal
point, optional decimal exponent. Returns `none` where Python's `float` raises
`ValueError`. The value `sign * digits * 10 ^ (exponent - fracLen)` is formed
with `mkRat` over integer numerator and denominator. (Non-numeric forms Python
also accepts, such as `inf` and `nan`, have no rational value and are not
modelled.) -/
def pyFloat (s : PyStr) : Option ℚ :=
  let t := pyStrip s
  let signBody : Bool × PyStr :=
    match t with
    | '+' :: b => (false, b)
    | '-' :: b => (true, b)
    | b => (false, b)
  match parseMantissa signBody.2 with
  | none => none
  | some ((m, f), rest) =>
    match parseExpPart rest with
    | none => none
    | some e =>
      let numNat : ℕ := m * 10 ^ e.toNat
      let num : ℤ := if signBody.1 then -Int.ofNat numNat else Int.ofNat numNat
      some (mkRat num (10 ^ f * 10 ^ (-e).toNat))

instance {ε α : Type} [DecidableEq ε] [DecidableEq α] : DecidableEq (Except ε α) := fun
  | .error a, .error b =>
    if h : a = b then .isTrue (h ▸ rfl)
    else .isFalse (fun hh => h (Except.error.inj hh))
  | .error _, .ok _ => .isFalse (fun hh => Except.noConfusion hh)
  | .ok _, .error _ => .isFalse (fun hh => Except.noConfusion hh)
  | .ok a, .ok b =>
    if h : a = b then .isTrue (h ▸ rfl)
    else .isFalse (fun hh => h (Except.ok.inj hh))

/-- Python's `str.split(sep)` for a one-character separator: split at every
occurrence, keeping empty fields; the result list is never empty. -/
def splitSep (sep : Char) : PyStr → List PyStr
  | [] => [[]]
  | c :: rest =>
    if c = sep then [] :: splitSep sep rest
    else
      match splitSep sep rest with
      | [] => [[c]]
      | f :: r => (c :: f) :: r

example : splitSep ',' "1,2,,3".toList =
    ["1".toList, "2".toList, [], "3".toList] := by decide

example : pyFloat " 12.5 ".toList = some (mkRat 25 2) := by decide

example : pyFloat "-3.".toList = some (-3 : ℚ) := by decide

example : pyFloat "4a".toList = none := by decide

/-- The comma-split-and-parse step of `convert_crop_units`:
`[float(s.strip()) for s in crop_str.split(",")]`, `none` when any field fails
to parse (Python raises there). -/
def parse_crop_fields (s : PyStr) : Option (List ℚ) :=
  (splitSep ',' s).mapM pyFloat

/-- The arithmetic core of `convert_crop_units`: with pixel units every scalar
is multiplied by `72 / dpi`, and the canonical rectangle
`(x, y, x + w, y + h)` is formed. -/
def convert_crop_scaled (x y w h : ℚ) (units : String) (dpi : ℚ) :
    ℚ × ℚ × ℚ × ℚ :=
  if units = "px" then
    let scale := 72 / dpi
    (x * scale, y * scale, x * scale + w * scale, y * scale + h * scale)
  else (x, y, x + w, y + h)

/-- `convert_crop_units` of `ingest_voters_to_supabase.py`: an empty crop
string means no crop (`none`, full page); otherwise the string must split into
exactly four float fields, else a `ValueError` is raised (modelled as
`.error`); with `units = "px"` the scalars are rescaled by `72 / dpi` before
the canonical `(x, y, x + w, y + h)` rectangle is formed. -/
def convert_crop_units (crop_str : PyStr) (units : String) (dpi : ℚ) :
    Except PyStr (Option (ℚ × ℚ × ℚ × ℚ)) :=
  if crop_str.isEmpty then .ok none
  else
    match parse_crop_fields crop_str with
    | some [x, y, w, h] => .ok (some (convert_crop_scaled x y w h units dpi))
    | _ => .error "Invalid --ocr-crop. Expected x,y,w,h numbers.".toList

example : convert_crop_units "10,20,30,40".toList "pt" 200 =
    .ok (some (mkRat 10 1, mkRat 20 1, mkRat 10 1 + mkRat 30 1,
      mkRat 20 1 + mkRat 40 1)) := rfl

example : convert_crop_units [] "pt" 200 = .ok none := by decide

example : convert_crop_units "1,2,3".toList "pt" 200 =
    .error "Invalid --ocr-crop. Expected x,y,w,h numbers.".toList := by decide

/-- The recognized raster extensions of `upload_and_get_url`. -/
def raster_exts : List PyStr :=
  [".png".toList, ".jpg".toList, ".jpeg".toList, ".tif".toList, ".tiff".toList,
   ".bmp".toList, ".gif".toList, ".webp".toList]

/-- Python's `str.lstrip(".")`: drop leading dots. -/
def lstrip_dot (s : PyStr) : PyStr := s.dropWhile (fun c => c = '.')

/-- The content-type derivation of `upload_and_get_url`
(`ingest_voters_to_supabase.py`, lines 100-107), applied to the uploaded
file's extension (`local_path.suffix`): `.pdf` maps to `application/pdf`, the
recognized raster extensions map to `image/...` (with `.jpg` spelled `jpeg`),
everything else to `application/octet-stream`. -/
def content_type_for (ext0 : PyStr) : PyStr :=
  let ext := ext0.map pyLower
  if ext = ".pdf".toList then "application/pdf".toList
  else if raster_exts.contains ext then
    "image/".toList ++ (if ext = ".jpg".toList then "jpeg".toList else lstrip_dot ext)
  else "application/octet-stream".toList

example : content_type_for ".PDF".toList = "application/pdf".toList := by decide

example : content_type_for ".jpg".toList = "image/jpeg".toList := by decide

example : content_type_for ".txt".toList = "application/octet-stream".toList := by decide

/-- Semantics of `main.py`'s `VOTER_ID_ALLOWED = re.compile(r"^[A-Z0-9]{3,40}$")`
full-match test: between 3 and 40 characters, all in `[A-Z0-9]`. -/
def VOTER_ID_ALLOWED_matches (s : PyStr) : Bool :=
  3 ≤ s.length && s.length ≤ 40 && s.all isUpperAlnumChar

/-- The validation step of `main.py`'s `/search` route (`search_voter`): the
raw query is normalized; if the normalized identifier fails
`VOTER_ID_ALLOWED`, HTTP 400 "Invalid voter_id format" is raised, otherwise
the normalized identifier is used for the lookup. -/
def search_voter_validation (raw : PyStr) : Except Nat PyStr :=
  let norm_id := normalize_voter_id raw
  if VOTER_ID_ALLOWED_matches norm_id then .ok norm_id else .error 400

/-- A PyMuPDF rectangle: left, top, right, bottom, in PDF points. -/
structure FRect where
  x0 : ℚ
  y0 : ℚ
  x1 : ℚ
  y1 : ℚ
deriving DecidableEq

/-- PyMuPDF rectangle intersection (the `&` operator of `fitz.Rect`). -/
def FRect.inter (a b : FRect) : FRect :=
  ⟨max a.x0 b.x0, max a.y0 b.y0, min a.x1 b.x1, min a.y1 b.y1⟩

/-- PyMuPDF's `Rect.is_empty`: width or height not positive. -/
def FRect.is_empty (r : FRect) : Bool := r.x1 ≤ r.x0 || r.y1 ≤ r.y0

/-- The images `pdf_crop.py` saves for one page: the cropped area and the full
page. -/
inductive CropArtifact where
  | cropImage (page : Nat)
  | fullImage (page : Nat)
deriving DecidableEq

/-- The body of `pdf_crop.py`'s per-page loop (`main`, lines 133-164): the crop
rectangle is intersected with the page's own bounds; if the intersection is
empty the page is skipped with a warning and nothing is saved, otherwise the
cropped area and the full page are rendered and saved. The function is total:
the skip path raises nothing. -/
def process_crop_page (crop_rect : FRect) (pnum : Nat) (page_rect : FRect) :
    List CropArtifact :=
  let clip := crop_rect.inter page_rect
  if clip.is_empty then [] else [.cropImage pnum, .fullImage pnum]

/-- `pdf_crop.py`'s page loop over the selected pages (page number paired with
the page's bounds): collects every saved artifact and the final value of the
`saved` counter. -/
def crop_loop (crop_rect : FRect) : List (Nat × FRect) → List CropArtifact × Nat
  | [] => ([], 0)
  | (pnum, prect) :: rest =>
    let arts := process_crop_page crop_rect pnum prect
    let restRes := crop_loop crop_rect rest
    (arts ++ restRes.1, (if arts.isEmpty then 0 else 1) + restRes.2)

example :
    process_crop_page ⟨1000, 1000, 1100, 1200⟩ 1 ⟨0, 0, 612, 792⟩ = [] := by decide

example :
    crop_loop ⟨1000, 1000, 1100, 1200⟩ [(1, ⟨0, 0, 612, 792⟩), (2, ⟨0, 0, 2000, 2000⟩)] =
      ([.cropImage 2, .fullImage 2], 1) := by decide

/-- One call to the external PDF engine's `get_pixmap`, as the ingest pipeline
issues it: the zoom factor of the matrix and the clip argument (`none` means
full page). -/
structure PixmapCall where
  zoom : ℚ
  clip : Option FRect
deriving DecidableEq

/-- `render_page_for_ocr` of `ingest_voters_to_supabase.py` (lines 123-130),
modelled by the engine calls it makes: `zoom = dpi / 72.0`, and the crop
rectangle — when one is supplied — is passed unchanged as the clip of a single
unconditional `get_pixmap` call. The function never consults the page's
bounds: there is no intersection with them and no skip path; whatever the
engine does with an out-of-page clip is the engine's behavior, and an
exception it raised would propagate (the function has no handler). -/
def render_page_for_ocr_calls (dpi : ℚ) (crop_rect_pt : Option FRect) :
    List PixmapCall :=
  [⟨dpi / 72, crop_rect_pt⟩]

/-- Outcomes of the external calls made while processing one page in `main` of
`ingest_voters_to_supabase.py`. Each field records what the corresponding call
would do: return a value (`.ok`) or raise an exception (`.error` with the
message).
* `singleUrl` — the single-page upload (`upload_and_get_url`);
* `renderOk` — `render_page_for_ocr` (the image bytes themselves are not
  inspected by the control flow, so they are not modelled);
* `ocr` — `ocr_image_texts`, which returns the OCR lines, or raises a
  `RuntimeError` when the Vision API reports an error;
* `insertResp` — the table-insert call: `.error` when `.execute()` raises, and
  otherwise `.ok r` where `r` is the `error` attribute of the response
  (`some msg` when the store reported an error object without raising). -/
structure PageEnv where
  singleUrl : Except PyStr PyStr
  renderOk : Except PyStr Unit
  ocr : Except PyStr (List PyStr)
  insertResp : Except PyStr (Option PyStr)
deriving DecidableEq

/-- One document seen by the run: its name, the outcome of its full-document
upload, and its pages' call outcomes in order. -/
structure DocEnv where
  name : PyStr
  fullUpload : Except PyStr PyStr
  pages : List PageEnv
deriving DecidableEq

/-- The progress messages `main` prints, as observable events. -/
inductive LogEvent where
  | processing (doc : PyStr)
  | fullUploaded (doc : PyStr) (url : PyStr)
  | singleUploaded (page : ℕ) (url : PyStr)
  | noIds (page : ℕ)
  | insertErrorLogged (page : ℕ) (msg : PyStr)
  | insertedRows (page : ℕ) (count : ℕ)
deriving DecidableEq

/-- The per-page body of `main`'s loop (`ingest_voters_to_supabase.py`, lines
205-256), with `pnum` the 1-based page number. There is no exception handler
in the source: the only `try` block is a `try/finally` that deletes the
temporary OCR image, so any raise from the single-page upload, the render, the
OCR call, or the insert call itself propagates out (`Except.error`). The two
tolerated outcomes are an empty identifier list (logged, `continue`) and an
insert response carrying an error attribute (logged to stderr, loop goes
on). -/
def processPage (cls : Char → Bool) (pnum : ℕ) (p : PageEnv) :
    Except PyStr (List LogEvent) :=
  match p.singleUrl with
  | .error e => .error e
  | .ok surl =>
    match p.renderOk with
    | .error e => .error e
    | .ok _ =>
      match p.ocr with
      | .error e => .error e
      | .ok lines =>
        let voter_ids := extract_ids_from_lines lines cls
        if voter_ids.isEmpty then .ok [.singleUploaded pnum surl, .noIds pnum]
        else
          match p.insertResp with
          | .error e => .error e
          | .ok (some msg) =>
            .ok [.singleUploaded pnum surl, .insertErrorLogged pnum msg]
          | .ok none =>
            .ok [.singleUploaded pnum surl, .insertedRows pnum voter_ids.length]

/-- `main`'s page loop (`for i in range(doc.page_count)`), starting at page
number `pnum`: events of every page concatenated; an uncaught exception from
one page aborts the loop. -/
def processPages (cls : Char → Bool) : ℕ → List PageEnv → Except PyStr (List LogEvent)
  | _, [] => .ok []
  | pnum, p :: rest =>
    match processPage cls pnum p with
    | .error e => .error e
    | .ok evs =>
      match processPages cls (pnum + 1) rest with
      | .error e => .error e
      | .ok evss => .ok (evs ++ evss)

/-- Processing of one document in `main` (lines 195-258): the full-document
upload first (uncaught on failure), then the page loop. -/
def processDoc (cls : Char → Bool) (d : DocEnv) : Except PyStr (List LogEvent) :=
  match d.fullUpload with
  | .error e => .error e
  | .ok furl =>
    match processPages cls 1 d.pages with
    | .error e => .error e
    | .ok evs => .ok (.processing d.name :: .fullUploaded d.name furl :: evs)

/-- `main`'s document loop (`for pdf_path in pdf_files`): an uncaught
exception from one document aborts the run. -/
def runMain (cls : Char → Bool) : List DocEnv → Except PyStr (List LogEvent)
  | [] => .ok []
  | d :: rest =>
    match processDoc cls d with
    | .error e => .error e
    | .ok evs =>
      match runMain cls rest with
      | .error e => .error e
      | .ok evss => .ok (evs ++ evss)

/-- The process exit code of the modelled run: 0 on normal completion, 1 when
an uncaught Python exception terminates the process. -/
def exitCode (r : Except PyStr (List LogEvent)) : ℕ :=
  match r with
  | .ok _ => 0
  | .error _ => 1

/-- A page on which no external call raises: the single-page upload, render
and OCR calls return, and the insert call returns a response (which may still
carry an error attribute). -/
def PageEnv.noRaise (p : PageEnv) : Prop :=
  (∃ u, p.singleUrl = .ok u) ∧ p.renderOk = .ok () ∧
  (∃ l, p.ocr = .ok l) ∧ (∃ r, p.insertResp = .ok r)

/-- A page interaction on which every call succeeds and OCR reads the given
lines. -/
def pageOk (url : PyStr) (lines : List PyStr) : PageEnv :=
  ⟨.ok url, .ok (), .ok lines, .ok none⟩

/-- A page interaction whose OCR call raises (`ocr_image_texts` turning a
Vision API error into a `RuntimeError`). -/
def pageOcrBoom (url : PyStr) (msg : PyStr) : PageEnv :=
  ⟨.ok url, .ok (), .error msg, .ok none⟩

example :
    runMain defaultIdClass
      [⟨"doc".toList, .ok "F".toList,
        [pageOk "u1".toList ["AB/12".toList],
         pageOk "u2".toList [],
         pageOk "u3".toList ["CD/34".toList]]⟩] =
    .ok [.processing "doc".toList, .fullUploaded "doc".toList "F".toList,
         .singleUploaded 1 "u1".toList, .insertedRows 1 1,
         .singleUploaded 2 "u2".toList, .noIds 2,
         .singleUploaded 3 "u3".toList, .insertedRows 3 1] := by decide

example :
    runMain defaultIdClass
      [⟨"doc".toList, .ok "F".toList,
        [pageOk "u1".toList ["AB/12".toList],
         pageOcrBoom "u2".toList "Vision API error: quota".toList,
         pageOk "u3".toList ["CD/34".toList]]⟩] =
    .error "Vision API error: quota".toList := by decide

/-! ## Helper lemmas on the string model -/

lemma dropWhile_eq_self_of_all {p : Char → Bool} {l : PyStr}
    (h : ∀ c ∈ l, p c = false) : l.dropWhile p = l := by
  cases l with
  | nil => rfl
  | cons a t => simp [List.dropWhile_cons, h a (by simp)]

lemma rdropWhile_eq_self_of_all {p : Char → Bool} {l : PyStr}
    (h : ∀ c ∈ l, p c = false) : l.rdropWhile p = l := by
  rw [List.rdropWhile,
    dropWhile_eq_self_of_all (fun c hc => h c (List.mem_reverse.mp hc))]
  exact l.reverse_reverse

lemma pyStrip_eq_self_of_all {l : PyStr} (h : ∀ c ∈ l, isPySpace c = false) :
    pyStrip l = l := by
  unfold pyStrip
  rw [dropWhile_eq_self_of_all h, rdropWhile_eq_self_of_all h]

lemma mem_of_mem_pyStrip {l : PyStr} {c : Char} (h : c ∈ pyStrip l) : c ∈ l :=
  (List.dropWhile_suffix isPySpace).subset
    ((List.rdropWhile_prefix isPySpace (l.dropWhile isPySpace)).subset h)

lemma dropWhile_eq_self_of_prefix {p : Char → Bool} {u m : PyStr}
    (hpre : u <+: m) (hm : m.dropWhile p = m) : u.dropWhile p = u := by
  cases u with
  | nil => rfl
  | cons a t =>
    obtain ⟨s, hs⟩ := hpre
    have hpa : p a = false := by
      cases hb : p a with
      | false => rfl
      | true =>
        rw [← hs, List.cons_append, List.dropWhile_cons, if_pos hb] at hm
        have hle : (List.dropWhile p (t ++ s)).length ≤ (t ++ s).length :=
          (List.dropWhile_suffix p).length_le
        rw [hm] at hle
        simp at hle
    simp [List.dropWhile_cons, hpa]

lemma dropWhile_pyStrip (l : PyStr) :
    (pyStrip l).dropWhile isPySpace = pyStrip l := by
  unfold pyStrip
  exact dropWhile_eq_self_of_prefix
    (List.rdropWhile_prefix isPySpace (l.dropWhile isPySpace))
    (List.dropWhile_idempotent isPySpace l)

lemma pyStrip_idem (l : PyStr) : pyStrip (pyStrip l) = pyStrip l := by
  have h2 : pyStrip (pyStrip l) = (pyStrip l).rdropWhile isPySpace := by
    show ((pyStrip l).dropWhile isPySpace).rdropWhile isPySpace = _
    rw [dropWhile_pyStrip]
  rw [h2]
  show ((l.dropWhile isPySpace).rdropWhile isPySpace).rdropWhile isPySpace = _
  rw [List.rdropWhile_idempotent]
  rfl

lemma pyUpper_of_upperAlnum {c : Char} (h : isUpperAlnumChar c = true) :
    pyUpper c = c := by
  have h' : ¬(97 ≤ c.toNat ∧ c.toNat ≤ 122) := by
    simp only [isUpperAlnumChar, Bool.or_eq_true, Bool.and_eq_true,
      decide_eq_true_eq] at h
    omega
  simp [pyUpper, h']

lemma not_space_of_upperAlnum {c : Char} (h : isUpperAlnumChar c = true) :
    isPySpace c = false := by
  simp only [isUpperAlnumChar, Bool.or_eq_true, Bool.and_eq_true,
    decide_eq_true_eq] at h
  simp only [isPySpace, Bool.or_eq_false_iff, decide_eq_false_iff_not]
  omega

lemma ne_slash_of_upperAlnum {c : Char} (h : isUpperAlnumChar c = true) :
    (c != '/') = true := by
  simp only [bne_iff_ne, ne_eq]
  intro hc
  subst hc
  exact absurd h (by decide)

lemma normalize_voter_id_chars (raw : PyStr) :
    ∀ c ∈ normalize_voter_id raw, isUpperAlnumChar c = true := by
  intro c hc
  unfold normalize_voter_id at hc
  exact List.of_mem_filter (List.take_subset _ _ hc)

lemma normalize_voter_id_len (raw : PyStr) :
    (normalize_voter_id raw).length ≤ 40 := by
  unfold normalize_voter_id
  rw [List.length_take]
  exact min_le_left _ _

lemma normalize_eq_self_of_upperAlnum {y : PyStr}
    (hchars : ∀ c ∈ y, isUpperAlnumChar c = true) (hlen : y.length ≤ 40) :
    normalize_voter_id y = y := by
  have h1 : y.filter (fun c => c != '/') = y :=
    List.filter_eq_self.mpr (fun a ha => ne_slash_of_upperAlnum (hchars a ha))
  have h2 : y.map pyUpper = y := by
    rw [List.map_congr_left
      (fun a ha => (pyUpper_of_upperAlnum (hchars a ha) : pyUpper a = id a))]
    exact List.map_id y
  have h3 : y.filter isUpperAlnumChar = y := List.filter_eq_self.mpr hchars
  show (((y.filter (fun c => c != '/')).map pyUpper).filter isUpperAlnumChar).take 40 = y
  rw [h1, h2, h3]
  exact List.take_of_length_le hlen

/-! ## C3, C4, C5 -/

/-- C5: both the ingest-side cleaning `clean_voter_id` and the query-side
`normalize_voter_id` are idempotent: applying either to its own output yields
the same value, for every input string. -/
theorem C5_normalization_idempotent (x : PyStr) :
    clean_voter_id (clean_voter_id x) = clean_voter_id x
    ∧ normalize_voter_id (normalize_voter_id x) = normalize_voter_id x := by
  constructor
  · have h1 : (pyStrip (x.filter (fun c => c != '/'))).filter (fun c => c != '/') =
        pyStrip (x.filter (fun c => c != '/')) :=
      List.filter_eq_self.mpr
        (fun a ha => (List.mem_filter.mp (mem_of_mem_pyStrip ha)).2)
    show pyStrip ((pyStrip (x.filter (fun c => c != '/'))).filter (fun c => c != '/')) = _
    rw [h1]
    exact pyStrip_idem _
  · exact normalize_eq_self_of_upperAlnum (normalize_voter_id_chars x)
      (normalize_voter_id_len x)

/-- C3 counterexample: the ingest-side cleaning and the query-side
normalization do not agree on every string. On the raw identifier "ab/12" the
ingest side stores "ab12" (no uppercasing) while the query side looks up
"AB12", so a lookup for the very identifier that was inserted misses. -/
theorem C3_counterexample :
    clean_voter_id "ab/12".toList ≠ normalize_voter_id "ab/12".toList
    ∧ clean_voter_id "ab/12".toList = "ab12".toList
    ∧ normalize_voter_id "ab/12".toList = "AB12".toList := by decide

/-- C3 (amended): the two sides agree exactly on the raw identifiers whose
characters are uppercase ASCII letters, digits, or the separator `/`, with at
most 40 characters left after the separator is removed. On such strings
`clean_voter_id` and `normalize_voter_id` both return the string with `/`
removed; in general (lowercase letters, other punctuation, whitespace, length
over 40) the two differ, as `C3_counterexample` shows. -/
theorem C3_normalization_lockstep (x : PyStr)
    (hchar : ∀ c ∈ x, isUpperAlnumChar c = true ∨ c = '/')
    (hlen : (x.filter (fun c => c != '/')).length ≤ 40) :
    clean_voter_id x = normalize_voter_id x := by
  have hmchar : ∀ c ∈ x.filter (fun c => c != '/'), isUpperAlnumChar c = true := by
    intro c hc
    have hx := List.mem_filter.mp hc
    rcases hchar c hx.1 with h | h
    · exact h
    · rw [h] at hx
      simp at hx
  have h0 : clean_voter_id x = x.filter (fun c => c != '/') :=
    pyStrip_eq_self_of_all (fun c hc => not_space_of_upperAlnum (hmchar c hc))
  have h1 : normalize_voter_id x = x.filter (fun c => c != '/') := by
    have hq : (x.filter (fun c => c != '/')).filter (fun c => c != '/') =
        x.filter (fun c => c != '/') :=
      List.filter_eq_self.mpr (fun a ha => (List.mem_filter.mp ha).2)
    show (((x.filter (fun c => c != '/')).map pyUpper).filter isUpperAlnumChar).take 40 = _
    have h2 : (x.filter (fun c => c != '/')).map pyUpper = x.filter (fun c => c != '/') := by
      rw [List.map_congr_left
        (fun a ha => (pyUpper_of_upperAlnum (hmchar a ha) : pyUpper a = id a))]
      exact List.map_id _
    have h3 : (x.filter (fun c => c != '/')).filter isUpperAlnumChar =
        x.filter (fun c => c != '/') := List.filter_eq_self.mpr hmchar
    rw [h2, h3]
    exact List.take_of_length_le hlen
  rw [h0, h1]

theorem C3_normalization_lockstep_witness :
    clean_voter_id "WB/24/162/012136".toList =
      normalize_voter_id "WB/24/162/012136".toList :=
  C3_normalization_lockstep "WB/24/162/012136".toList (by decide) (by decide)

/-- C4 counterexample: on the spec's own example lines, extraction does not
yield `["AB12", "CD34"]`: the line "xx" also matches the default alphanumeric
pattern, survives cleaning, and is kept. -/
theorem C4_counterexample :
    extract_ids_from_lines
      ["AB/12".toList, "xx".toList, "AB12".toList, "CD/34".toList]
      defaultIdClass ≠ ["AB12".toList, "CD34".toList] := by decide

/-- C4 (amended): for the OCR lines ["AB/12", "xx", "AB12", "CD/34"] with
separator `/` and the default pattern matching alphanumerics plus the
separator, extraction yields exactly ["AB12", "xx", "CD34"]: every maximal
alphanumeric-or-separator run is a candidate (so "xx" is kept), the second
occurrence of AB12 (the cleaned "AB/12") is dropped, and first-seen order is
preserved. -/
theorem C4_dedup_order_example :
    extract_ids_from_lines
      ["AB/12".toList, "xx".toList, "AB12".toList, "CD/34".toList]
      defaultIdClass =
      ["AB12".toList, "xx".toList, "CD34".toList] := by decide

/-! ## C6, C7: crop-rectangle conversion -/

/-- C6: unit conversion round-trip. A pixel-space rectangle `(x, y, w, h)`
converted by `convert_crop_units`'s arithmetic with units "px" at resolution
`dpi` (each scalar multiplied by `72 / dpi`) and then re-expressed in pixels
at the same resolution (each coordinate multiplied by `dpi / 72`) recovers the
original pixel values exactly over rational arithmetic: the four recovered
coordinates are `x`, `y`, `x + w`, `y + h`, the canonical rectangle of the
original pixel scalars. -/
theorem C6_px_unit_roundtrip (x y w h dpi : ℚ) (hdpi : dpi ≠ 0) :
    ((convert_crop_scaled x y w h "px" dpi).1 * (dpi / 72),
     (convert_crop_scaled x y w h "px" dpi).2.1 * (dpi / 72),
     (convert_crop_scaled x y w h "px" dpi).2.2.1 * (dpi / 72),
     (convert_crop_scaled x y w h "px" dpi).2.2.2 * (dpi / 72)) =
    (x, y, x + w, y + h) := by
  unfold convert_crop_scaled
  rw [if_pos rfl]
  simp only [Prod.mk.injEq]
  refine ⟨?_, ?_, ?_, ?_⟩ <;> field_simp <;> ring

theorem C6_px_unit_roundtrip_witness :
    ((convert_crop_scaled 457 108 105 702 "px" 300).1 * (300 / 72),
     (convert_crop_scaled 457 108 105 702 "px" 300).2.1 * (300 / 72),
     (convert_crop_scaled 457 108 105 702 "px" 300).2.2.1 * (300 / 72),
     (convert_crop_scaled 457 108 105 702 "px" 300).2.2.2 * (300 / 72)) =
    ((457 : ℚ), (108 : ℚ), (457 : ℚ) + 105, (108 : ℚ) + 702) :=
  C6_px_unit_roundtrip 457 108 105 702 300 (by norm_num)

/-- C7: crop-string parsing. The coordinate normalizer returns "no region"
(`ok none`, full page) on the empty string; when the non-empty string parses
into exactly four float fields `x, y, w, h` (here with units "pt") it returns
the canonical rectangle `(x, y, x + w, y + h)`; and it raises the
`ValueError` (`Invalid --ocr-crop`) if and only if the string is non-empty and
does not split into exactly four parseable float fields. -/
theorem C7_crop_parsing (s : PyStr) (units : String) (dpi : ℚ) :
    convert_crop_units [] units dpi = .ok none
    ∧ (∀ x y w h : ℚ, parse_crop_fields s = some [x, y, w, h] →
        convert_crop_units s "pt" dpi = .ok (some (x, y, x + w, y + h)))
    ∧ ((∃ e, convert_crop_units s units dpi = .error e) ↔
        (s ≠ [] ∧ ∀ l, parse_crop_fields s = some l → l.length ≠ 4)) := by
  refine ⟨rfl, ?_, ?_⟩
  · intro x y w h hp
    cases s with
    | nil =>
      rw [show parse_crop_fields ([] : PyStr) = none from rfl] at hp
      exact absurd hp (by simp)
    | cons c t =>
      simp only [convert_crop_units, List.isEmpty_cons, if_false, Bool.false_eq_true,
        if_neg, hp]
      rfl
  · cases s with
    | nil =>
      constructor
      · rintro ⟨e, he⟩
        simp [convert_crop_units] at he
      · rintro ⟨hne, -⟩
        exact absurd rfl hne
    | cons c t =>
      have hne : (c :: t).isEmpty = false := rfl
      constructor
      · rintro ⟨e, he⟩
        refine ⟨by simp, ?_⟩
        intro l hl hlen
        rcases l with _ | ⟨a, _ | ⟨b, _ | ⟨c', _ | ⟨d, _ | rest⟩⟩⟩⟩ <;>
          simp at hlen <;>
          simp [convert_crop_units, hne, hl] at he
      · rintro ⟨-, hl4⟩
        rcases hl : parse_crop_fields (c :: t) with - | l
        · refine ⟨"Invalid --ocr-crop. Expected x,y,w,h numbers.".toList, ?_⟩
          simp [convert_crop_units, hne, hl]
        · rcases l with _ | ⟨a, _ | ⟨b, _ | ⟨c', _ | ⟨d, _ | rest⟩⟩⟩⟩ <;>
            first
            | exact absurd rfl (hl4 _ hl)
            | exact ⟨"Invalid --ocr-crop. Expected x,y,w,h numbers.".toList,
                by simp [convert_crop_units, hne, hl]⟩

/-! ## C8, C9, C10 -/

/-- C8 counterexample: the intersect-first-then-skip behavior is not
universal. For a crop rectangle lying entirely outside the page's bounds
(intersection empty), the ingest pipeline's `render_page_for_ocr` still
renders: it issues one `get_pixmap` call to the engine, and the clip it passes
is the raw rectangle — not the (empty) intersection with the page, and not a
skip. So for this cited path the claim's "rectangle is first intersected with
the page's own bounds" and "rendering for that rectangle is skipped — zero
rendered artifacts" are both false at this input. -/
theorem C8_counterexample :
    ((⟨1000, 1000, 1100, 1200⟩ : FRect).inter ⟨0, 0, 612, 792⟩).is_empty = true
    ∧ render_page_for_ocr_calls (mkRat 200 1) (some ⟨1000, 1000, 1100, 1200⟩) ≠ []
    ∧ (render_page_for_ocr_calls (mkRat 200 1)
        (some ⟨1000, 1000, 1100, 1200⟩)).map PixmapCall.clip =
      [some ⟨1000, 1000, 1100, 1200⟩] := by
  refine ⟨by decide, ?_, ?_⟩ <;> simp [render_page_for_ocr_calls]

/-- C8 (amended): the empty-intersection skip is implemented in `pdf_crop.py`
only. There, the supplied crop rectangle is first intersected with the page's
own bounds; when that intersection is empty (in particular when the rectangle
lies entirely outside the page), the page is skipped: zero artifacts are
produced for that rectangle (and the functions are total, so no exception
arises), and sibling pages of the loop are unaffected — the loop's artifacts
are exactly those of the other pages. The ingest-side `render_page_for_ocr`,
by contrast, performs no intersection and has no skip path: it always issues
exactly one engine render call, passing the supplied rectangle unchanged as
the clip, and leaves the outcome to the external PDF engine. -/
theorem C8_empty_intersection_skip (crop page_rect : FRect) (pnum : ℕ)
    (pages1 pages2 : List (ℕ × FRect)) (dpi : ℚ)
    (h : (crop.inter page_rect).is_empty = true) :
    process_crop_page crop pnum page_rect = []
    ∧ (crop_loop crop (pages1 ++ (pnum, page_rect) :: pages2)).1 =
      (crop_loop crop pages1).1 ++ (crop_loop crop pages2).1
    ∧ render_page_for_ocr_calls dpi (some crop) = [⟨dpi / 72, some crop⟩] := by
  have h1 : process_crop_page crop pnum page_rect = [] := by
    simp [process_crop_page, h]
  refine ⟨h1, ?_, rfl⟩
  induction pages1 with
  | nil => simp [crop_loop, h1]
  | cons p ps ih =>
    rcases p with ⟨n, r⟩
    simp [crop_loop, ih, List.append_assoc]

theorem C8_empty_intersection_skip_witness :
    process_crop_page ⟨1000, 1000, 1100, 1200⟩ 1 ⟨0, 0, 612, 792⟩ = []
    ∧ (crop_loop ⟨1000, 1000, 1100, 1200⟩
        ([] ++ (1, (⟨0, 0, 612, 792⟩ : FRect)) :: [(2, ⟨0, 0, 2000, 2000⟩)])).1 =
      (crop_loop ⟨1000, 1000, 1100, 1200⟩ []).1 ++
      (crop_loop ⟨1000, 1000, 1100, 1200⟩ [(2, ⟨0, 0, 2000, 2000⟩)]).1
    ∧ render_page_for_ocr_calls (mkRat 150 1) (some ⟨1000, 1000, 1100, 1200⟩) =
      [⟨mkRat 150 1 / 72, some ⟨1000, 1000, 1100, 1200⟩⟩] :=
  C8_empty_intersection_skip ⟨1000, 1000, 1100, 1200⟩ ⟨0, 0, 612, 792⟩ 1
    [] [(2, ⟨0, 0, 2000, 2000⟩)] (mkRat 150 1) (by decide)

/-- C9: content-type derivation in `upload_and_get_url`. The declared content
type is a function of the file extension alone: `.pdf` (case-insensitively)
yields `application/pdf`; each recognized raster extension yields the
corresponding `image/...` type (`.jpg` and `.jpeg` both spelled
`image/jpeg`); every other extension yields the generic binary type
`application/octet-stream`. -/
theorem C9_content_type_derivation (ext0 : PyStr) :
    content_type_for ".pdf".toList = "application/pdf".toList
    ∧ content_type_for ".png".toList = "image/png".toList
    ∧ content_type_for ".jpg".toList = "image/jpeg".toList
    ∧ content_type_for ".jpeg".toList = "image/jpeg".toList
    ∧ content_type_for ".tif".toList = "image/tif".toList
    ∧ content_type_for ".tiff".toList = "image/tiff".toList
    ∧ content_type_for ".bmp".toList = "image/bmp".toList
    ∧ content_type_for ".gif".toList = "image/gif".toList
    ∧ content_type_for ".webp".toList = "image/webp".toList
    ∧ (ext0.map pyLower ≠ ".pdf".toList → ext0.map pyLower ∉ raster_exts →
        content_type_for ext0 = "application/octet-stream".toList) := by
  refine ⟨by decide, by decide, by decide, by decide, by decide, by decide,
    by decide, by decide, by decide, ?_⟩
  intro h1 h2
  have h1' : ext0.map pyLower ≠ ['.', 'p', 'd', 'f'] := by simpa using h1
  simp [content_type_for, h1', h2]

theorem C9_content_type_derivation_witness :
    content_type_for ".txt".toList = "application/octet-stream".toList :=
  (C9_content_type_derivation ".txt".toList).2.2.2.2.2.2.2.2.2
    (by decide) (by decide)

/-- C10: query-side validation reduces to a length check. For every raw query
string, `normalize_voter_id` returns only uppercase ASCII letters and digits
and at most 40 of them, so the `/search` route's 400 "Invalid voter_id
format" rejection happens exactly when the normalized identifier is shorter
than 3 characters. -/
theorem C10_validation_is_length_check (raw : PyStr) :
    (normalize_voter_id raw).all isUpperAlnumChar = true
    ∧ (normalize_voter_id raw).length ≤ 40
    ∧ (search_voter_validation raw = .error 400 ↔
        (normalize_voter_id raw).length < 3) := by
  have hall := List.all_eq_true.mpr (normalize_voter_id_chars raw)
  have hlen := normalize_voter_id_len raw
  refine ⟨hall, hlen, ?_⟩
  by_cases h3 : 3 ≤ (normalize_voter_id raw).length
  · have hm : VOTER_ID_ALLOWED_matches (normalize_voter_id raw) = true := by
      simp only [VOTER_ID_ALLOWED_matches, Bool.and_eq_true, decide_eq_true_eq]
      exact ⟨⟨h3, hlen⟩, hall⟩
    simp only [search_voter_validation, hm, if_true]
    constructor
    · intro hcontra
      exact absurd hcontra (by simp)
    · intro hlt
      omega
  · have hm : VOTER_ID_ALLOWED_matches (normalize_voter_id raw) = false := by
      cases hmm : VOTER_ID_ALLOWED_matches (normalize_voter_id raw) with
      | false => rfl
      | true =>
        exfalso
        simp only [VOTER_ID_ALLOWED_matches, Bool.and_eq_true,
          decide_eq_true_eq] at hmm
        exact h3 hmm.1.1
    simp only [search_voter_validation, hm, if_false]
    constructor
    · intro _
      omega
    · intro _
      rfl

/-! ## C1, C2: failure propagation in the orchestrator -/

lemma processPage_ok_of_noRaise (cls : Char → Bool) (n : ℕ) (p : PageEnv)
    (h : p.noRaise) : ∃ evs, processPage cls n p = .ok evs := by
  obtain ⟨⟨u, hu⟩, hr, ⟨l, hl⟩, ⟨r, hins⟩⟩ := h
  by_cases hids : (extract_ids_from_lines l cls).isEmpty
  · refine ⟨[.singleUploaded n u, .noIds n], ?_⟩
    simp [processPage, hu, hr, hl, hids]
  · cases r with
    | none =>
      refine ⟨[.singleUploaded n u,
        .insertedRows n (extract_ids_from_lines l cls).length], ?_⟩
      simp [processPage, hu, hr, hl, hins, hids]
    | some msg =>
      refine ⟨[.singleUploaded n u, .insertErrorLogged n msg], ?_⟩
      simp [processPage, hu, hr, hl, hins, hids]

lemma processPages_ok_of_noRaise (cls : Char → Bool) :
    ∀ ps : List PageEnv, (∀ p ∈ ps, p.noRaise) →
      ∀ n, ∃ evs, processPages cls n ps = .ok evs := by
  intro ps
  induction ps with
  | nil => exact fun _ n => ⟨[], rfl⟩
  | cons p rest ih =>
    intro h n
    obtain ⟨evs1, h1⟩ := processPage_ok_of_noRaise cls n p (h p (by simp))
    obtain ⟨evs2, h2⟩ := ih (fun q hq => h q (by simp [hq])) (n + 1)
    exact ⟨evs1 ++ evs2, by simp [processPages, h1, h2]⟩

lemma processPages_error_of_ocr_raise (cls : Char → Bool) (bad : PageEnv)
    (e : PyStr) (hs : ∃ u, bad.singleUrl = .ok u) (hr : bad.renderOk = .ok ())
    (ho : bad.ocr = .error e) :
    ∀ front : List PageEnv, (∀ p ∈ front, p.noRaise) →
      ∀ (rest : List PageEnv) (n : ℕ),
        processPages cls n (front ++ bad :: rest) = .error e := by
  intro front
  induction front with
  | nil =>
    intro _ rest n
    obtain ⟨u, hu⟩ := hs
    simp [processPages, processPage, hu, hr, ho]
  | cons p f ih =>
    intro hfront rest n
    obtain ⟨evs, hp⟩ := processPage_ok_of_noRaise cls n p (hfront p (by simp))
    simp [processPages, hp, ih (fun q hq => hfront q (by simp [hq])) rest (n + 1)]

/-- C1 counterexample to page-level failure isolation: a 3-page document whose
page 2 OCR call reports an error (so `ocr_image_texts` raises a
`RuntimeError`). The run does not continue with page 3 and does not exit with
code 0: the exception propagates out of `main` uncaught — there is no handler
around the per-page stages, only a `try/finally` for temp-file cleanup — so
the whole run aborts with the page-2 error and a nonzero exit code, and no
rows are inserted for page 3. -/
theorem C1_counterexample :
    runMain defaultIdClass
      [⟨"doc".toList, .ok "F".toList,
        [pageOk "u1".toList ["AB/12".toList],
         pageOcrBoom "u2".toList "Vision API error: quota".toList,
         pageOk "u3".toList ["CD/34".toList]]⟩] =
      .error "Vision API error: quota".toList
    ∧ exitCode (runMain defaultIdClass
        [⟨"doc".toList, .ok "F".toList,
          [pageOk "u1".toList ["AB/12".toList],
           pageOcrBoom "u2".toList "Vision API error: quota".toList,
           pageOk "u3".toList ["CD/34".toList]]⟩]) = 1 := by decide

/-- C1 (amended): per-page failure isolation holds only for the two outcomes
the code checks explicitly — an empty extraction result and an insert error
reported in the response object — while a raised exception is not page-local.
Concretely: (1) if any page's OCR call raises (after its single-page upload
and render succeeded) and the pages before it raise nothing, the whole run
aborts with that error and exit code 1, regardless of the later pages and
later documents; (2) a document all of whose pages raise nothing (including
pages whose insert merely reports an error in the response, and pages with no
identifiers) completes with its progress log. -/
theorem C1_page_error_aborts_run (cls : Char → Bool) (name furl e : PyStr)
    (front rest : List PageEnv) (bad : PageEnv) (docs : List DocEnv)
    (hfront : ∀ p ∈ front, PageEnv.noRaise p)
    (hs : ∃ u, bad.singleUrl = .ok u) (hr : bad.renderOk = .ok ())
    (ho : bad.ocr = .error e) :
    runMain cls (⟨name, .ok furl, front ++ bad :: rest⟩ :: docs) = .error e
    ∧ exitCode (runMain cls (⟨name, .ok furl, front ++ bad :: rest⟩ :: docs)) = 1
    ∧ (∀ (d : DocEnv) (u : PyStr), d.fullUpload = .ok u →
        (∀ p ∈ d.pages, PageEnv.noRaise p) → ∃ evs, processDoc cls d = .ok evs) := by
  have hpp := processPages_error_of_ocr_raise cls bad e hs hr ho front hfront rest 1
  have hdoc : processDoc cls ⟨name, .ok furl, front ++ bad :: rest⟩ = .error e := by
    simp [processDoc, hpp]
  refine ⟨by simp [runMain, hdoc], by simp [runMain, hdoc, exitCode], ?_⟩
  intro d u hu hpages
  obtain ⟨evs, hevs⟩ := processPages_ok_of_noRaise cls d.pages hpages 1
  exact ⟨.processing d.name :: .fullUploaded d.name u :: evs,
    by simp [processDoc, hu, hevs]⟩

theorem C1_page_error_aborts_run_witness :
    runMain defaultIdClass
      [⟨"doc2".toList, .ok "F".toList,
        [pageOk "u1".toList ["AB/12".toList],
         pageOcrBoom "u2".toList "Vision API error: denied".toList,
         pageOk "u3".toList ["CD/34".toList]]⟩] =
      .error "Vision API error: denied".toList :=
  (C1_page_error_aborts_run defaultIdClass "doc2".toList "F".toList
    "Vision API error: denied".toList
    [pageOk "u1".toList ["AB/12".toList]]
    [pageOk "u3".toList ["CD/34".toList]]
    (pageOcrBoom "u2".toList "Vision API error: denied".toList) []
    (by
      intro p hp
      simp only [List.mem_singleton] at hp
      subst hp
      exact ⟨⟨_, rfl⟩, rfl, ⟨_, rfl⟩, ⟨_, rfl⟩⟩)
    ⟨"u2".toList, rfl⟩ rfl rfl).1

/-- C2 counterexample to document-level failure isolation: in a run over two
documents where the first document's full-document upload raises, the run does
not proceed to the second document — there is no handler in the document loop,
so the exception aborts the whole run with exit code 1 and the second
document's events never appear. -/
theorem C2_counterexample :
    runMain defaultIdClass
      [⟨"doc1".toList, .error "upload failed: 403".toList, []⟩,
       ⟨"doc2".toList, .ok "F2".toList, [pageOk "u".toList ["AB/12".toList]]⟩] =
      .error "upload failed: 403".toList
    ∧ exitCode (runMain defaultIdClass
        [⟨"doc1".toList, .error "upload failed: 403".toList, []⟩,
         ⟨"doc2".toList, .ok "F2".toList, [pageOk "u".toList ["AB/12".toList]]⟩]) =
      1 := by decide

/-- C2 (amended): a failure of the full-document upload is not recoverable at
document granularity. When any document's full upload raises, `main` has no
handler for it: the run aborts at that document with the upload's error and a
nonzero exit code, whatever documents (and pages) follow. -/
theorem C2_full_upload_error_aborts_run (cls : Char → Bool) (name e : PyStr)
    (pages : List PageEnv) (docs : List DocEnv) :
    runMain cls (⟨name, .error e, pages⟩ :: docs) = .error e
    ∧ exitCode (runMain cls (⟨name, .error e, pages⟩ :: docs)) = 1 := by
  have hdoc : processDoc cls ⟨name, .error e, pages⟩ = .error e := by
    simp [processDoc]
  exact ⟨by simp [runMain, hdoc], by simp [runMain, hdoc, exitCode]⟩
